import Mathlib

/-!
Shallow embedding of the porkbun DNS management tool's core subsystems:
the DNS API client (`lib/porkbun_dns.py`), the DNS template generator
(`lib/dns_templates.py`), the nameserver audit worker
(`lib/workers/domain_ns_worker.py`) and the bulk template applicator
(`lib/workers/bulk_dns_worker.py`).

Network and filesystem interaction is modelled by explicit environment
functions (oracles for API responses) and by effect traces recording the
calls a run issues, so that statements about "no network call" or about
the transmitted payloads are expressible.
-/

namespace Porkbun

/-! ## String helpers

Python's `pat in s` substring test, modelled over the character lists of
the strings involved. -/

def hasSubstrChars (pat : List Char) : List Char → Bool
  | [] => pat.isEmpty
  | c :: rest => pat.isPrefixOf (c :: rest) || hasSubstrChars pat rest

/-- Python `pat in s` (substring containment). -/
def strContains (s pat : String) : Bool :=
  hasSubstrChars pat.data s.data

/-- Python `s.lower()`, modelled characterwise. -/
def strLower (s : String) : String :=
  String.mk (s.data.map Char.toLower)

/-- Python `s.strip()`: drop whitespace from both ends. -/
def strStrip (s : String) : String :=
  String.mk (((s.data.dropWhile Char.isWhitespace).reverse.dropWhile Char.isWhitespace).reverse)

/-- Python `c in s` for a single character. -/
def strHasChar (s : String) (c : Char) : Bool :=
  s.data.contains c

/-! ## PorkbunDNS.get_default_nameservers / is_using_porkbun_nameservers
(`lib/porkbun_dns.py`, lines 300-328) -/

/-- The fixed vendor default nameserver set returned by
`get_default_nameservers`. -/
def get_default_nameservers : List String :=
  ["curitiba.ns.porkbun.com", "fortaleza.ns.porkbun.com",
   "maceio.ns.porkbun.com", "salvador.ns.porkbun.com"]

def vendorDomain : String := "porkbun.com"

/-- The per-entry test the source applies:
`any(porkbun in ns.lower() for porkbun in ["porkbun.com"])`,
i.e. a case-insensitive substring match against `porkbun.com`. -/
def ns_matches_vendor (ns : String) : Bool :=
  strContains (strLower ns) vendorDomain

/-- Model of `PorkbunDNS.is_using_porkbun_nameservers`: the loop returns `False` as
soon as one entry fails the substring match; after the loop the result is
`len(nameservers) > 0`. -/
def is_using_porkbun_nameservers (nameservers : List String) : Bool :=
  nameservers.all ns_matches_vendor && decide (nameservers.length > 0)

/-- Modelled from the spec: "every entry matches the vendor's own domain
suffix" — a case-insensitive suffix match against `porkbun.com`. Used to
compare the spec's wording with the source's substring test. -/
def spec_matches_vendor_suffix (ns : String) : Bool :=
  vendorDomain.data.isSuffixOf (strLower ns).data

/-! ## PorkbunDNS.update_nameservers (`lib/porkbun_dns.py`, lines 240-298) -/

/-- The validation/cleanup pass of `update_nameservers`: drop entries that
are empty or whitespace-only, trim the rest (case preserved), and keep an
entry only if it contains a dot and is longer than 3 characters. -/
def ns_valid_clean (nameservers : List String) : List String :=
  nameservers.filterMap fun ns =>
    if ns = "" then none
    else if strStrip ns = "" then none
    else
      let ns_clean := strStrip ns
      if strHasChar ns_clean '.' && decide (ns_clean.length > 3) then some ns_clean
      else none

def msg_empty_nameservers : String :=
  "네임서버가 비어있습니다!\n\nPorkbun 기본 네임서버를 사용하시겠습니까?\n- curitiba.ns.porkbun.com\n- fortaleza.ns.porkbun.com\n- maceio.ns.porkbun.com\n- salvador.ns.porkbun.com"

def msg_need_two_nameservers : String :=
  "최소 2개 이상의 네임서버가 필요합니다."

/-- A nameserver update request actually handed to `_make_request`
(`POST /domain/updateNs/<domain>` with body `ns = [...]`). -/
structure NsUpdateCall where
  domain : String
  ns : List String
  deriving Repr, DecidableEq

def msg_ns_500 (domain : String) (valid_nameservers : List String) : String :=
  "네임서버 업데이트 실패 (500 Internal Server Error)\n\n입력한 네임서버: " ++
    String.intercalate (", ") valid_nameservers ++
    "\n\n해결 방법:\n1. 웹사이트에서 현재 네임서버가 비어있는지 확인:\n   https://porkbun.com/account/domainsSpeedy?domain=" ++
    domain ++
    "\n\n2. 네임서버가 비어있다면, 먼저 Porkbun 기본값으로 설정:\n   - curitiba.ns.porkbun.com\n   - fortaleza.ns.porkbun.com\n   - maceio.ns.porkbun.com\n   - salvador.ns.porkbun.com\n\n3. 그 다음 원하는 네임서버로 변경"

/-- Model of `PorkbunDNS.update_nameservers`. The network transmission is an
environment function `send`; the returned trace lists the update requests
that were actually issued, so an `Except.error` paired with an empty trace
is a raise before any network call. -/
def update_nameservers (send : NsUpdateCall → Except String Unit) (domain : String)
    (nameservers : List String) : Except String Unit × List NsUpdateCall :=
  let valid_nameservers := ns_valid_clean nameservers
  if valid_nameservers.isEmpty then
    (Except.error msg_empty_nameservers, [])
  else if valid_nameservers.length < 2 then
    (Except.error msg_need_two_nameservers, [])
  else
    let call : NsUpdateCall := { domain := domain, ns := valid_nameservers.take 10 }
    match send call with
    | Except.ok _ => (Except.ok (), [call])
    | Except.error e =>
      if strContains e ("500") || strContains e ("Internal Server Error") then
        (Except.error (msg_ns_500 domain valid_nameservers), [call])
      else
        (Except.error e, [call])

/-! ## DNS templates (`lib/dns_templates.py`) -/

/-- The source constant `ALPHABET = string.ascii_lowercase + string.digits`. -/
def ALPHABET : String := "abcdefghijklmnopqrstuvwxyz0123456789"

/-- One generated DNS record descriptor (the dicts placed in
`TemplateResult.records` / consumed by the bulk worker). Optional fields
model `dict.get` defaults in the worker. -/
structure RecordRequest where
  type : String
  name : Option String
  content : String
  ttl : Option Int
  prio : Option Int
  notes : Option String
  deriving Repr, DecidableEq

/-- The metadata dict built by `generate_tempererror_chain`. -/
structure TemplateMetadata where
  template : String
  tempererror_chain : List String
  wildcard_target : String
  hop_count : Nat
  final_content : String
  deriving Repr, DecidableEq

structure TemplateResult where
  records : List RecordRequest
  metadata : TemplateMetadata
  deriving Repr, DecidableEq

/-- Model of `_generate_random_label`: `max(min_length, 30)` characters drawn from
the random source, modelled as a character oracle `choice`. -/
def generate_random_label (choice : Nat → Char) (min_length : Nat) : String :=
  String.mk ((List.range (max min_length 30)).map choice)

/-- The collision-checked label collection loop of
`generate_tempererror_chain`: keep drawing candidates from the oracle
`gen` until `chain_depth` distinct labels are collected. The loop has no
bound in the source (it terminates with probability 1); here it carries
explicit fuel and returns `none` when the fuel runs out. -/
def select_random_labels (gen : Nat → String) (chain_depth : Nat) :
    Nat → Nat → List String → Option (List String)
  | 0, _, acc => if chain_depth ≤ acc.length then some acc else none
  | fuel + 1, i, acc =>
    if acc.length < chain_depth then
      if gen i ∈ acc then select_random_labels gen chain_depth fuel (i + 1) acc
      else select_random_labels gen chain_depth fuel (i + 1) (acc ++ [gen i])
    else some acc

def default_final_content : String := "v=spf1 include:_spf.AUTUMNWINDZ.COM ~all"

def wildcard_record (wildcard_redirect : String) : RecordRequest :=
  { type := "TXT", name := some ("*"),
    content := "v=spf1 redirect=" ++ wildcard_redirect,
    ttl := some 600, prio := none,
    notes := some ("Tempererror wildcard redirect") }

/-- The `for idx in range(len(random_labels) - 1)` hop records: one TXT
record per consecutive pair of random labels. -/
def chain_hops (domain : String) : List String → List RecordRequest
  | a :: b :: rest =>
    { type := "TXT", name := some a,
      content := "v=spf1 redirect=" ++ b ++ "." ++ domain ++ ".",
      ttl := some 600, prio := none,
      notes := some ("Tempererror chain hop") } :: chain_hops domain (b :: rest)
  | _ => []

/-- Model of `generate_tempererror_chain`. Randomness is supplied by `choices`
(one character oracle per candidate label) and the unbounded
collision-check loop by `fuel`; everything else follows the source. -/
def generate_tempererror_chain (choices : Nat → Nat → Char) (fuel : Nat) (domain : String)
    (chain_depth : Int) (min_label_length : Nat) (final_content : String) :
    Option TemplateResult :=
  let depth : Nat := (max 0 chain_depth).toNat
  let gen : Nat → String := fun i => generate_random_label (choices i) min_label_length
  match select_random_labels gen depth fuel 0 [] with
  | none => none
  | some random_labels =>
    let wildcard_redirect := "_spf." ++ domain ++ "."
    let fc := if strStrip final_content = "" then default_final_content else strStrip final_content
    let tail_records : List RecordRequest :=
      match random_labels with
      | [] =>
        [{ type := "TXT", name := some ("_spf"), content := fc, ttl := some 600,
           prio := none, notes := some ("Tempererror direct include") }]
      | first :: rest =>
        ({ type := "TXT", name := some ("_spf"),
           content := "v=spf1 redirect=" ++ first ++ "." ++ domain ++ ".",
           ttl := some 600, prio := none,
           notes := some ("Tempererror chain hop") } : RecordRequest)
          :: (chain_hops domain (first :: rest) ++
            [{ type := "TXT", name := some ((first :: rest).getLast (List.cons_ne_nil first rest)),
               content := fc, ttl := some 600, prio := none,
               notes := some ("Tempererror final stage") }])
    some
      { records := wildcard_record wildcard_redirect :: tail_records,
        metadata :=
          { template := "Tempererror SPF", tempererror_chain := random_labels,
            wildcard_target := wildcard_redirect, hop_count := depth,
            final_content := fc } }

/-! ## Nameserver audit worker (`lib/workers/domain_ns_worker.py`) -/

/-- The outcome of one HTTP attempt inside `check_domain_ns`:
a 200 response whose JSON body has `status` `SUCCESS` or not, a non-200
status code, a `requests` timeout, or any other exception. -/
inductive NsApiResponse where
  | httpOk (body_success : Bool) (ns : List String)
  | http (code : Nat)
  | timeout
  | exn (msg : String)
  deriving Repr, DecidableEq

structure NsCheckResult where
  domain : String
  nameservers : List String
  is_external : Bool
  deriving Repr, DecidableEq

/-- What one call of `check_domain_ns` produced: its return value, the
total seconds spent in `time.sleep`, and the number of HTTP requests it
issued. -/
structure NsCheckOutcome where
  result : Option NsCheckResult
  slept : Nat
  requests : Nat
  deriving Repr, DecidableEq

/-- The literal `porkbun_ns` list inside `check_domain_ns`. -/
def audit_porkbun_ns : List String :=
  ["curitiba.ns.porkbun.com", "fortaleza.ns.porkbun.com",
   "maceio.ns.porkbun.com", "salvador.ns.porkbun.com"]

/-- The classification performed on a successful response:
`external_ns = [ns for ns in ns_list if ns not in porkbun_ns]`, external
iff that list is non-empty. -/
def check_domain_ns_classify (domain : String) (ns_list : List String) : NsCheckResult :=
  if !(ns_list.filter fun ns => !(audit_porkbun_ns.contains ns)).isEmpty then
    { domain := domain, nameservers := ns_list, is_external := true }
  else
    { domain := domain, nameservers := ns_list, is_external := false }

/-- The `for attempt in range(max_retries)` loop of `check_domain_ns`.
`left` counts the attempts remaining after the current one, `attempt` is
the current index into the response oracle, `retry_delay` the current
backoff (doubled only in the 503 branch), `slept`/`reqs` the accumulated
sleep seconds and issued requests. A 200 response with a non-SUCCESS body
falls through every branch and loops again without sleeping, exactly as
the source does. -/
def check_domain_ns_go (responses : Nat → NsApiResponse) (domain : String) :
    Nat → Nat → Nat → Nat → Nat → NsCheckOutcome
  | 0, _, _, slept, reqs => { result := none, slept := slept, requests := reqs }
  | left + 1, attempt, retry_delay, slept, reqs =>
    match responses attempt with
    | NsApiResponse.httpOk true ns_list =>
      { result := some (check_domain_ns_classify domain ns_list), slept := slept,
        requests := reqs + 1 }
    | NsApiResponse.httpOk false _ =>
      check_domain_ns_go responses domain left (attempt + 1) retry_delay slept (reqs + 1)
    | NsApiResponse.http code =>
      if code = 503 then
        if 0 < left then
          check_domain_ns_go responses domain left (attempt + 1) (retry_delay * 2)
            (slept + retry_delay) (reqs + 1)
        else
          { result := none, slept := slept, requests := reqs + 1 }
      else
        { result := none, slept := slept, requests := reqs + 1 }
    | NsApiResponse.timeout =>
      if 0 < left then
        check_domain_ns_go responses domain left (attempt + 1) retry_delay
          (slept + retry_delay) (reqs + 1)
      else
        { result := none, slept := slept, requests := reqs + 1 }
    | NsApiResponse.exn _ =>
      { result := none, slept := slept, requests := reqs + 1 }

/-- Model of `DomainNSWorker.check_domain_ns`: `max_retries = 3`, initial
`retry_delay = 2`. -/
def check_domain_ns (responses : Nat → NsApiResponse) (domain : String) : NsCheckOutcome :=
  check_domain_ns_go responses domain 3 0 2 0 0

/-! ## Bulk template applicator (`lib/workers/bulk_dns_worker.py`) -/

/-- A record dict as returned by `get_dns_records`; every field is read
with `.get`, so each is optional. -/
structure ExistingRecord where
  id : Option String
  name : Option String
  type : Option String
  content : Option String
  deriving Repr, DecidableEq

/-- The summary appended to `deleted` for each successful deletion. -/
structure DeletedSummary where
  id : String
  name : String
  content : String
  type : Option String
  deriving Repr, DecidableEq

/-- The summary appended to `result.created_records` for each successful
creation. -/
structure CreatedSummary where
  type : String
  name : String
  content : String
  deriving Repr, DecidableEq

/-- The argument tuple of a `client.create_dns_record` call. -/
structure CreatePayload where
  domain : String
  type : String
  content : String
  name : String
  ttl : Int
  prio : Option Int
  notes : Option String
  deriving Repr, DecidableEq

/-- A create response: whether `status` is `SUCCESS`, and its optional
`message`. -/
structure CreateResponse where
  success : Bool
  message : Option String
  deriving Repr, DecidableEq

/-- The `DomainJobResult` dataclass with its field defaults. -/
structure DomainJobResult where
  domain : String
  success : Bool := false
  created_records : List CreatedSummary := []
  errors : List String := []
  metadata : Option TemplateMetadata := none
  backup_path : Option String := none
  deleted_records : List DeletedSummary := []
  deriving Repr, DecidableEq

/-- Observable actions of a bulk run: client construction, filesystem
operations, API calls and emitted Qt signals. -/
inductive Effect where
  | newClient
  | ensureBackupDir
  | progressEmit (current : Nat) (total : Nat) (message : String)
  | apiGetRecords (domain : String)
  | writeBackup (domain : String) (path : String)
  | apiDelete (domain : String) (record_id : String)
  | apiCreate (payload : CreatePayload)
  | completedEmit (results : List DomainJobResult)
  deriving Repr, DecidableEq

/-- Constructor arguments plus environment of a `BulkDNSWorker`: the
oracles model what the Porkbun API answers for each call. -/
structure BulkCtx where
  domains : List String
  delete_types : List String
  backup_dir : String
  timestamp : String
  generator : String → TemplateResult
  api_records : String → Except String (List ExistingRecord)
  api_delete : String → String → Except String Bool
  api_create : CreatePayload → Except String CreateResponse

/-- The test `existing.get("type") in self.delete_types` (a `None` type never
matches a list of strings). -/
def record_type_matches (delete_types : List String) (existing : ExistingRecord) : Bool :=
  match existing.type with
  | some t => delete_types.contains t
  | none => false

/-- Python truthiness of `existing.get("id")`: falsy when the key is
missing or the value is the empty string. -/
def record_id_falsy (existing : ExistingRecord) : Bool :=
  match existing.id with
  | none => true
  | some s => s.isEmpty

def delete_fail_msg (existing : ExistingRecord) : String :=
  (existing.type.getD ("None")) ++ " 삭제 실패: " ++ existing.name.getD ("@")

def deleted_summary (record_id : String) (existing : ExistingRecord) : DeletedSummary :=
  { id := record_id, name := existing.name.getD ("@"),
    content := existing.content.getD (""), type := existing.type }

/-- The deletion loop of `BulkDNSWorker.run` (lines 90-108): records whose
type matches and whose id is truthy are deleted one by one; a non-SUCCESS
response or a raised exception aborts the loop with an error, and only a
fully successful loop returns the collected summaries (the source assigns
`result.deleted_records = deleted` after the loop, so an aborted loop
contributes no summaries). The trace lists the issued delete calls. -/
def delete_matching_records (api_delete : String → Except String Bool) (domain : String)
    (delete_types : List String) :
    List ExistingRecord → Except String (List DeletedSummary) × List Effect
  | [] => (Except.ok [], [])
  | existing :: rest =>
    if record_type_matches delete_types existing then
      match existing.id with
      | none => delete_matching_records api_delete domain delete_types rest
      | some record_id =>
        if record_id.isEmpty then delete_matching_records api_delete domain delete_types rest
        else
          match api_delete record_id with
          | Except.error e => (Except.error e, [Effect.apiDelete domain record_id])
          | Except.ok false =>
            (Except.error (delete_fail_msg existing), [Effect.apiDelete domain record_id])
          | Except.ok true =>
            let next := delete_matching_records api_delete domain delete_types rest
            (next.1.map fun l => deleted_summary record_id existing :: l,
             Effect.apiDelete domain record_id :: next.2)
    else
      delete_matching_records api_delete domain delete_types rest

/-- The arguments the worker passes to `client.create_dns_record` for one
generated descriptor, including the TTL clamp
`max(int(request.get("ttl", 600)), 600)`. -/
def make_create_payload (domain : String) (request : RecordRequest) : CreatePayload :=
  { domain := domain, type := request.type, content := request.content,
    name := request.name.getD (""),
    ttl := max (request.ttl.getD 600) 600,
    prio := request.prio, notes := request.notes }

/-- The summary dict `request.get("name") or "@"` and friends build: the created-record summary. -/
def created_summary (request : RecordRequest) : CreatedSummary :=
  { type := request.type,
    name :=
      match request.name with
      | some s => if s.isEmpty then ("@") else s
      | none => "@",
    content := request.content }

def msg_api_error : String := "API 오류"

/-- The creation loop of `BulkDNSWorker.run` (lines 117-137): summaries
are appended to `result.created_records` as each creation succeeds, so
the summaries gathered before a failure survive it. -/
def create_records_loop (api_create : CreatePayload → Except String CreateResponse)
    (domain : String) :
    List RecordRequest → Except String Unit × List CreatedSummary × List Effect
  | [] => (Except.ok (), [], [])
  | request :: rest =>
    let payload := make_create_payload domain request
    match api_create payload with
    | Except.error e => (Except.error e, [], [Effect.apiCreate payload])
    | Except.ok resp =>
      if resp.success then
        let next := create_records_loop api_create domain rest
        (next.1, created_summary request :: next.2.1, Effect.apiCreate payload :: next.2.2)
      else
        (Except.error (resp.message.getD msg_api_error), [], [Effect.apiCreate payload])

def msg_no_records : String := "생성할 DNS 레코드가 없습니다."

/-- The backup path, `timestamp` underscore `domain` dot log, inside the backup directory. -/
def backup_file_path (ctx : BulkCtx) (domain : String) : String :=
  ctx.backup_dir ++ "/" ++ ctx.timestamp ++ "_" ++ domain ++ ".log"

/-- The body of the per-domain `try` block of `BulkDNSWorker.run`
together with its `except` clause: fetch and back up the records, run the
deletion pass when `delete_types` is non-empty, generate the template,
reject an empty template, create the records; the first error is caught
and appended to `result.errors`. -/
def delete_step (ctx : BulkCtx) (domain : String) (records : List ExistingRecord) :
    Except String (List DeletedSummary) × List Effect :=
  if ctx.delete_types.isEmpty then (Except.ok [], [])
  else delete_matching_records (ctx.api_delete domain) domain ctx.delete_types records

def process_domain (ctx : BulkCtx) (domain : String) : DomainJobResult × List Effect :=
  match ctx.api_records domain with
  | Except.error e =>
    ({ domain := domain, errors := [e] }, [Effect.apiGetRecords domain])
  | Except.ok records =>
    let path := backup_file_path ctx domain
    let effs0 := [Effect.apiGetRecords domain, Effect.writeBackup domain path]
    match delete_step ctx domain records with
    | (Except.error e, del_effs) =>
      ({ domain := domain, backup_path := some path, errors := [e] }, effs0 ++ del_effs)
    | (Except.ok deleted, del_effs) =>
      let payload := ctx.generator domain
      if payload.records.isEmpty then
        ({ domain := domain, backup_path := some path, deleted_records := deleted,
           metadata := some payload.metadata, errors := [msg_no_records] },
         effs0 ++ del_effs)
      else
        match create_records_loop ctx.api_create domain payload.records with
        | (Except.error e, created, create_effs) =>
          ({ domain := domain, backup_path := some path, deleted_records := deleted,
             metadata := some payload.metadata, created_records := created,
             errors := [e] },
           effs0 ++ del_effs ++ create_effs)
        | (Except.ok _, created, create_effs) =>
          ({ domain := domain, success := true, backup_path := some path,
             deleted_records := deleted, metadata := some payload.metadata,
             created_records := created },
           effs0 ++ del_effs ++ create_effs)

def backing_up_msg (domain : String) : String := domain ++ " 백업 중..."

def done_msg (domain : String) : String := domain ++ " 처리 완료"

/-- The `for index, domain in enumerate(self.domains, start=1)` loop:
each iteration emits progress, processes one domain, appends the result
and emits progress again. -/
def run_loop (ctx : BulkCtx) (total : Nat) :
    List String → Nat → List DomainJobResult × List Effect
  | [], _ => ([], [])
  | domain :: rest, index =>
    let pd := process_domain ctx domain
    let next := run_loop ctx total rest (index + 1)
    (pd.1 :: next.1,
     (Effect.progressEmit (index - 1) total (backing_up_msg domain) :: pd.2 ++
        [Effect.progressEmit index total (done_msg domain)]) ++ next.2)

/-- Model of `BulkDNSWorker.run`: an empty domain list emits `completed([])` and
returns before the client or the backup directory exist; otherwise the
client is constructed, the backup directory ensured, every domain
processed in order and the collected results emitted. -/
def run (ctx : BulkCtx) : List DomainJobResult × List Effect :=
  if ctx.domains.isEmpty then ([], [Effect.completedEmit []])
  else
    let body := run_loop ctx ctx.domains.length ctx.domains 1
    (body.1,
     Effect.newClient :: Effect.ensureBackupDir :: body.2 ++ [Effect.completedEmit body.1])

/-! ## Claim C2 -/

/-- Claim C2, counterexample: the source tests `porkbun.com` as a
case-insensitive substring, not as a suffix, so a nameserver of a foreign
domain that merely embeds `porkbun.com` is accepted:
`is_using_porkbun_nameservers(["porkbun.com.attacker.net"])` is true even
though the entry does not match the vendor domain suffix. -/
theorem claim_c2_counterexample :
    is_using_porkbun_nameservers [("porkbun.com.attacker.net")] = true ∧
    spec_matches_vendor_suffix ("porkbun.com.attacker.net") = false := by
  decide

/-- Claim C2 (amended): `is_using_porkbun_nameservers(list)` returns true
iff the list is non-empty and every entry contains `porkbun.com` as a
case-insensitive substring; in particular it returns false for the empty
list, and false whenever any single entry fails the substring test. -/
theorem claim_c2 (nameservers : List String) :
    is_using_porkbun_nameservers nameservers = true ↔
      (nameservers ≠ [] ∧ ∀ ns ∈ nameservers, ns_matches_vendor ns = true) := by
  simp only [is_using_porkbun_nameservers, Bool.and_eq_true, List.all_eq_true,
    decide_eq_true_eq, gt_iff_lt, List.length_pos]
  exact and_comm

/-! ## Claim C6 -/

/-- Claim C6: `update_nameservers` keeps only entries that, after
trimming (case preserved), are non-empty, contain a dot and are longer
than 3 characters; with fewer than 2 valid entries it raises before any
network call (empty trace), and otherwise it transmits exactly the first
10 valid entries in a single request. -/
theorem claim_c6 (send : NsUpdateCall → Except String Unit) (domain : String)
    (nameservers : List String) :
    ((ns_valid_clean nameservers).length < 2 →
      (update_nameservers send domain nameservers).2 = [] ∧
      ∃ m, (update_nameservers send domain nameservers).1 = Except.error m) ∧
    (2 ≤ (ns_valid_clean nameservers).length →
      (update_nameservers send domain nameservers).2 =
        [{ domain := domain, ns := (ns_valid_clean nameservers).take 10 }]) ∧
    (∀ call ∈ (update_nameservers send domain nameservers).2, call.ns.length ≤ 10) ∧
    (∀ n ∈ ns_valid_clean nameservers, ∃ o ∈ nameservers,
      n = strStrip o ∧ strHasChar n '.' = true ∧ 3 < n.length) := by
  refine ⟨?_, ?_, ?_, ?_⟩
  · intro h
    unfold update_nameservers
    by_cases he : (ns_valid_clean nameservers).isEmpty
    · simp [he]
    · have hlt : (ns_valid_clean nameservers).length < 2 := h
      simp [he, hlt]
  · intro h
    unfold update_nameservers
    have he : (ns_valid_clean nameservers).isEmpty = false := by
      cases hv : ns_valid_clean nameservers with
      | nil => rw [hv] at h; simp at h
      | cons a l => simp [hv]
    have hlt : ¬ (ns_valid_clean nameservers).length < 2 := by omega
    simp only [he, Bool.false_eq_true, if_false, hlt]
    cases send { domain := domain, ns := (ns_valid_clean nameservers).take 10 } with
    | ok u => simp
    | error e => by_cases h5 : (strContains e ("500") || strContains e ("Internal Server Error")) = true <;> simp [h5]
  · intro call hc
    unfold update_nameservers at hc
    by_cases he : (ns_valid_clean nameservers).isEmpty
    · simp [he] at hc
    · by_cases hlt : (ns_valid_clean nameservers).length < 2
      · simp [he, hlt] at hc
      · simp only [he, Bool.false_eq_true, if_false, hlt] at hc
        have hmem : call = { domain := domain, ns := (ns_valid_clean nameservers).take 10 } := by
          cases hs : send { domain := domain, ns := (ns_valid_clean nameservers).take 10 } with
          | ok u => rw [hs] at hc; simpa using hc
          | error e =>
            rw [hs] at hc
            by_cases h5 : (strContains e ("500") || strContains e ("Internal Server Error")) = true <;>
              simp [h5] at hc <;> exact hc
        subst hmem
        exact List.length_take_le 10 (ns_valid_clean nameservers)
  · intro n hn
    unfold ns_valid_clean at hn
    rw [List.mem_filterMap] at hn
    obtain ⟨o, ho, hfo⟩ := hn
    refine ⟨o, ho, ?_⟩
    by_cases h1 : o = ""
    · simp [h1] at hfo
    · by_cases h2 : strStrip o = ""
      · simp [h1, h2] at hfo
      · simp only [h1, if_false, h2] at hfo
        by_cases h3 : (strHasChar (strStrip o) '.' && decide ((strStrip o).length > 3)) = true
        · rw [if_pos h3] at hfo
          obtain ⟨h4, h5⟩ := Bool.and_eq_true_iff.mp h3
          cases hfo
          exact ⟨rfl, h4, by simpa using h5⟩
        · rw [if_neg h3] at hfo
          cases hfo

def c6w_send : NsUpdateCall → Except String Unit := fun _ => Except.ok ()

/-- Claim C6, witness: a mixed input list is cleaned to two valid
entries and transmitted in one request; a single valid entry raises
without any request being issued. -/
theorem claim_c6_witness :
    (update_nameservers c6w_send ("example.com")
        [("ns1.example.com"), (" ns2.example.com "), (""), ("ab")]).2 =
      [{ domain := "example.com", ns := [("ns1.example.com"), ("ns2.example.com")] }] ∧
    (update_nameservers c6w_send ("example.com") [("only.one")]).2 = [] := by
  constructor
  · have h := (claim_c6 c6w_send ("example.com")
      [("ns1.example.com"), (" ns2.example.com "), (""), ("ab")]).2.1 (by decide)
    exact h.trans (by decide)
  · exact ((claim_c6 c6w_send ("example.com") [("only.one")]).1 (by decide)).1

/-! ## Claim C3 -/

theorem select_random_labels_length (gen : Nat → String) (chain_depth : Nat) :
    ∀ fuel i acc labels, select_random_labels gen chain_depth fuel i acc = some labels →
      acc.length ≤ chain_depth → labels.length = chain_depth := by
  intro fuel
  induction fuel with
  | zero =>
    intro i acc labels h hle
    unfold select_random_labels at h
    by_cases hc : chain_depth ≤ acc.length
    · rw [if_pos hc] at h; cases h; omega
    · rw [if_neg hc] at h; cases h
  | succ n ih =>
    intro i acc labels h hle
    unfold select_random_labels at h
    by_cases hc : acc.length < chain_depth
    · rw [if_pos hc] at h
      by_cases hm : gen i ∈ acc
      · rw [if_pos hm] at h; exact ih _ _ _ h hle
      · rw [if_neg hm] at h
        refine ih _ _ _ h ?_
        simp only [List.length_append, List.length_singleton]
        omega
    · rw [if_neg hc] at h; cases h; omega

theorem select_random_labels_nodup (gen : Nat → String) (chain_depth : Nat) :
    ∀ fuel i acc labels, select_random_labels gen chain_depth fuel i acc = some labels →
      acc.Nodup → labels.Nodup := by
  intro fuel
  induction fuel with
  | zero =>
    intro i acc labels h hnd
    unfold select_random_labels at h
    by_cases hc : chain_depth ≤ acc.length
    · rw [if_pos hc] at h; cases h; exact hnd
    · rw [if_neg hc] at h; cases h
  | succ n ih =>
    intro i acc labels h hnd
    unfold select_random_labels at h
    by_cases hc : acc.length < chain_depth
    · rw [if_pos hc] at h
      by_cases hm : gen i ∈ acc
      · rw [if_pos hm] at h; exact ih _ _ _ h hnd
      · rw [if_neg hm] at h
        refine ih _ _ _ h ?_
        simp [List.nodup_append, hnd, hm]
    · rw [if_neg hc] at h; cases h; exact hnd

theorem select_random_labels_forall (gen : Nat → String) (chain_depth : Nat)
    (P : String → Prop) (hgen : ∀ i, P (gen i)) :
    ∀ fuel i acc labels, select_random_labels gen chain_depth fuel i acc = some labels →
      (∀ x ∈ acc, P x) → ∀ x ∈ labels, P x := by
  intro fuel
  induction fuel with
  | zero =>
    intro i acc labels h hacc
    unfold select_random_labels at h
    by_cases hc : chain_depth ≤ acc.length
    · rw [if_pos hc] at h; cases h; exact hacc
    · rw [if_neg hc] at h; cases h
  | succ n ih =>
    intro i acc labels h hacc
    unfold select_random_labels at h
    by_cases hc : acc.length < chain_depth
    · rw [if_pos hc] at h
      by_cases hm : gen i ∈ acc
      · rw [if_pos hm] at h; exact ih _ _ _ h hacc
      · rw [if_neg hm] at h
        refine ih _ _ _ h ?_
        intro x hx
        rcases List.mem_append.mp hx with hx | hx
        · exact hacc x hx
        · rcases List.mem_singleton.mp hx with rfl
          exact hgen i
    · rw [if_neg hc] at h; cases h; exact hacc

theorem chain_hops_length (domain : String) (l : List String) :
    (chain_hops domain l).length = l.length - 1 := by
  induction l with
  | nil => rfl
  | cons a t ih =>
    cases t with
    | nil => rfl
    | cons b rest =>
      simp only [chain_hops, List.length_cons] at ih ⊢
      omega

theorem generate_random_label_length (choice : Nat → Char) (min_length : Nat) :
    (generate_random_label choice min_length).length = max min_length 30 := by
  simp [generate_random_label, String.length]

/-- Claim C3: whenever `generate_tempererror_chain` completes, for
`chain_depth ≥ 1` it yields exactly `chain_depth + 2` records, for
`chain_depth = 0` exactly the wildcard plus the direct `_spf` record
carrying the (stripped, defaulted) `final_content`; the generated random
labels are pairwise distinct and each has length
`max(min_label_length, 30)`. -/
theorem claim_c3 (choices : Nat → Nat → Char) (fuel : Nat) (domain : String)
    (chain_depth : Int) (min_label_length : Nat) (final_content : String)
    (tr : TemplateResult)
    (h : generate_tempererror_chain choices fuel domain chain_depth min_label_length
      final_content = some tr) :
    (1 ≤ chain_depth → tr.records.length = chain_depth.toNat + 2) ∧
    (chain_depth = 0 →
      tr.records = [wildcard_record ("_spf." ++ domain ++ "."),
        { type := "TXT", name := some ("_spf"),
          content := if strStrip final_content = "" then default_final_content
            else strStrip final_content,
          ttl := some 600, prio := none,
          notes := some ("Tempererror direct include") }]) ∧
    tr.metadata.tempererror_chain.Nodup ∧
    (∀ l ∈ tr.metadata.tempererror_chain, max min_label_length 30 ≤ l.length) := by
  unfold generate_tempererror_chain at h
  cases hsel : select_random_labels
      (fun i => generate_random_label (choices i) min_label_length)
      (max 0 chain_depth).toNat fuel 0 [] with
  | none => simp only [hsel] at h; exact Option.noConfusion h
  | some random_labels =>
    simp only [hsel, Option.some.injEq] at h
    subst h
    have hlen := select_random_labels_length _ _ _ _ _ _ hsel (by simp)
    have hnd := select_random_labels_nodup _ _ _ _ _ _ hsel List.nodup_nil
    have hall := select_random_labels_forall _ _
      (fun x => max min_label_length 30 ≤ x.length)
      (fun i => le_of_eq (generate_random_label_length (choices i) min_label_length).symm)
      _ _ _ _ hsel (by intro x hx; cases hx)
    refine ⟨?_, ?_, hnd, hall⟩
    · intro hd
      have hmax : max 0 chain_depth = chain_depth := max_eq_right (by omega)
      rw [hmax] at hlen
      cases hl : random_labels with
      | nil => rw [hl] at hlen; simp at hlen; omega
      | cons first rest =>
        rw [hl] at hlen
        simp only [List.length_cons] at hlen
        simp [hl, chain_hops_length]
        omega
    · intro hd
      subst hd
      simp only [Int.toNat_zero, max_self] at hlen
      have : random_labels = [] := List.length_eq_zero.mp (by simpa using hlen)
      subst this
      rfl

def c3w_choices : Nat → Nat → Char := fun i _ => Char.ofNat (97 + i)

def c3w_default : TemplateResult :=
  { records := [],
    metadata := { template := "", tempererror_chain := [], wildcard_target := "",
                  hop_count := 0, final_content := "" } }

def c3w_tr : TemplateResult :=
  (generate_tempererror_chain c3w_choices 2 ("example.com") 2 32 ("")).getD c3w_default

/-- Claim C3, witness: a depth-2 run over a concrete random source yields
4 records and two distinct 32-character labels. -/
theorem claim_c3_witness :
    c3w_tr.records.length = 4 ∧ c3w_tr.metadata.tempererror_chain.Nodup ∧
    (∀ l ∈ c3w_tr.metadata.tempererror_chain, max 32 30 ≤ l.length) := by
  have h : generate_tempererror_chain c3w_choices 2 ("example.com") 2 32 ("") = some c3w_tr := by
    decide
  have hc := claim_c3 c3w_choices 2 ("example.com") 2 32 ("") c3w_tr h
  refine ⟨?_, hc.2.2.1, hc.2.2.2⟩
  have h4 := hc.1 (by decide)
  rw [show ((2 : Int).toNat + 2) = 4 from rfl] at h4
  exact h4

/-! ## Claims C4 and C5 -/

theorem check_domain_ns_go_requests_le (responses : Nat → NsApiResponse) (domain : String) :
    ∀ left attempt retry_delay slept reqs,
      (check_domain_ns_go responses domain left attempt retry_delay slept reqs).requests ≤
        reqs + left := by
  intro left
  induction left with
  | zero =>
    intro a rd s r
    simp [check_domain_ns_go]
  | succ n ih =>
    intro a rd s r
    cases hr : responses a with
    | httpOk bs ns =>
      cases bs
      · simp only [check_domain_ns_go, hr]
        exact le_trans (ih (a + 1) rd s (r + 1)) (by omega)
      · simp [check_domain_ns_go, hr]
    | http code =>
      by_cases hc : code = 503
      · subst hc
        by_cases hn : 0 < n
        · simp only [check_domain_ns_go, hr, if_pos rfl, if_pos hn]
          exact le_trans (ih (a + 1) (rd * 2) (s + rd) (r + 1)) (by omega)
        · simp [check_domain_ns_go, hr, hn]
      · simp [check_domain_ns_go, hr, hc]
    | timeout =>
      by_cases hn : 0 < n
      · simp only [check_domain_ns_go, hr, if_pos hn]
        exact le_trans (ih (a + 1) rd (s + rd) (r + 1)) (by omega)
      · simp [check_domain_ns_go, hr, hn]
    | exn m => simp [check_domain_ns_go, hr]

/-- Claim C4 (amended): the per-domain check makes at most 3 attempts.
It retries after a timeout (sleeping the current delay, which is not
doubled), after HTTP 503 (sleeping the current delay, which is then
doubled: 2s, then 4s), and also — immediately, with no sleep — after a
200 response whose body status is not SUCCESS; any other HTTP status or
exception makes it return no result at once. A domain whose API returns
503 twice and then succeeds is reported as checked with total backoff
sleep 2+4=6 seconds, while two timeouts before a success sleep only
2+2=4 seconds. -/
theorem claim_c4 :
    (∀ responses domain, (check_domain_ns responses domain).requests ≤ 3) ∧
    (∀ responses domain code, responses 0 = NsApiResponse.http code → code ≠ 503 →
      check_domain_ns responses domain = { result := none, slept := 0, requests := 1 }) ∧
    (∀ responses domain msg, responses 0 = NsApiResponse.exn msg →
      check_domain_ns responses domain = { result := none, slept := 0, requests := 1 }) ∧
    (∀ responses domain ns0 ns_list, responses 0 = NsApiResponse.httpOk false ns0 →
      responses 1 = NsApiResponse.httpOk true ns_list →
      check_domain_ns responses domain =
        { result := some (check_domain_ns_classify domain ns_list), slept := 0,
          requests := 2 }) ∧
    (∀ responses domain ns_list, responses 0 = NsApiResponse.timeout →
      responses 1 = NsApiResponse.timeout →
      responses 2 = NsApiResponse.httpOk true ns_list →
      check_domain_ns responses domain =
        { result := some (check_domain_ns_classify domain ns_list), slept := 4,
          requests := 3 }) ∧
    (∀ responses domain ns_list, responses 0 = NsApiResponse.http 503 →
      responses 1 = NsApiResponse.http 503 →
      responses 2 = NsApiResponse.httpOk true ns_list →
      check_domain_ns responses domain =
        { result := some (check_domain_ns_classify domain ns_list), slept := 6,
          requests := 3 }) := by
  refine ⟨?_, ?_, ?_, ?_, ?_, ?_⟩
  · intro responses domain
    exact check_domain_ns_go_requests_le responses domain 3 0 2 0 0
  · intro responses domain code h0 hc
    simp [check_domain_ns, check_domain_ns_go, h0, hc]
  · intro responses domain msg h0
    simp [check_domain_ns, check_domain_ns_go, h0]
  · intro responses domain ns0 ns_list h0 h1
    simp [check_domain_ns, check_domain_ns_go, h0, h1]
  · intro responses domain ns_list h0 h1 h2
    simp [check_domain_ns, check_domain_ns_go, h0, h1, h2]
  · intro responses domain ns_list h0 h1 h2
    simp [check_domain_ns, check_domain_ns_go, h0, h1, h2]

def c4x_responses : Nat → NsApiResponse := fun n =>
  if n = 0 then NsApiResponse.httpOk false []
  else NsApiResponse.httpOk true [("ns1.external.example")]

def c4x_timeout_responses : Nat → NsApiResponse := fun n =>
  if n < 2 then NsApiResponse.timeout
  else NsApiResponse.httpOk true [("ns1.external.example")]

/-- Claim C4, counterexample: (a) after a 200 response whose body status
is not SUCCESS — neither a timeout nor an HTTP 503 — the worker still
retries: a second request is issued and produces the result; (b) two
timeouts before a success are retried with a constant 2-second delay
(total sleep 4), not the exponential 2+4 the claim describes. -/
theorem claim_c4_counterexample :
    c4x_responses 0 = NsApiResponse.httpOk false [] ∧
    (check_domain_ns c4x_responses ("a.com")).requests = 2 ∧
    (check_domain_ns c4x_responses ("a.com")).result.isSome = true ∧
    c4x_timeout_responses 0 = NsApiResponse.timeout ∧
    c4x_timeout_responses 1 = NsApiResponse.timeout ∧
    (check_domain_ns c4x_timeout_responses ("a.com")).slept = 4 ∧
    (check_domain_ns c4x_timeout_responses ("a.com")).result.isSome = true := by
  decide

def c4w_responses : Nat → NsApiResponse := fun n =>
  if n < 2 then NsApiResponse.http 503
  else NsApiResponse.httpOk true [("ns1.external.example")]

/-- Claim C4, witness: two 503 responses then a success give a checked,
externally-classified domain after 3 requests and 6 seconds of sleep. -/
theorem claim_c4_witness :
    check_domain_ns c4w_responses ("b.com") =
      { result := some { domain := "b.com", nameservers := [("ns1.external.example")],
                         is_external := true },
        slept := 6, requests := 3 } := by
  have h := claim_c4.2.2.2.2.2 c4w_responses ("b.com") [("ns1.external.example")]
    (by decide) (by decide) (by decide)
  exact h.trans (by decide)

theorem classify_is_external_eq (domain : String) (ns_list : List String) :
    (check_domain_ns_classify domain ns_list).is_external =
      !(ns_list.filter fun ns => !(audit_porkbun_ns.contains ns)).isEmpty := by
  unfold check_domain_ns_classify
  split
  · next hcond => exact hcond.symm
  · next hcond =>
    simp only [Bool.not_eq_true] at hcond
    rw [hcond]

/-- Claim C5: on a successful API response the check returns the
classification of the returned nameserver list; the result is external
iff some returned hostname is outside the fixed 4-member vendor default
set, the exact 4-member default list is classified non-external, and 3
defaults plus any foreign host are classified external. -/
theorem claim_c5 (responses : Nat → NsApiResponse) (domain : String) (ns_list : List String)
    (h : responses 0 = NsApiResponse.httpOk true ns_list) :
    (check_domain_ns responses domain).result =
      some (check_domain_ns_classify domain ns_list) ∧
    ((check_domain_ns_classify domain ns_list).is_external = true ↔
      ∃ ns ∈ ns_list, ns ∉ audit_porkbun_ns) ∧
    (ns_list = audit_porkbun_ns →
      (check_domain_ns_classify domain ns_list).is_external = false) ∧
    (∀ foreign, foreign ∉ audit_porkbun_ns →
      ns_list = audit_porkbun_ns.take 3 ++ [foreign] →
      (check_domain_ns_classify domain ns_list).is_external = true) := by
  refine ⟨?_, ?_, ?_, ?_⟩
  · simp [check_domain_ns, check_domain_ns_go, h]
  · rw [classify_is_external_eq]
    simp
  · intro heq
    subst heq
    rw [classify_is_external_eq]
    decide
  · intro foreign hforeign heq
    subst heq
    have hc : audit_porkbun_ns.contains foreign = false := by
      cases hcon : audit_porkbun_ns.contains foreign
      · rfl
      · exact absurd (List.elem_iff.mp hcon) hforeign
    rw [classify_is_external_eq]
    simp [hc]
    exact fun _ => hforeign

def c5w_responses : Nat → NsApiResponse := fun _ =>
  NsApiResponse.httpOk true audit_porkbun_ns

/-- Claim C5, witness: an API answer of exactly the 4 vendor defaults is
checked and classified non-external. -/
theorem claim_c5_witness :
    (check_domain_ns c5w_responses ("c.com")).result =
      some (check_domain_ns_classify ("c.com") audit_porkbun_ns) ∧
    (check_domain_ns_classify ("c.com") audit_porkbun_ns).is_external = false := by
  have h := claim_c5 c5w_responses ("c.com") audit_porkbun_ns rfl
  exact ⟨h.1, h.2.2.1 rfl⟩

/-! ## Claims C7 and C9 -/

theorem run_loop_results (ctx : BulkCtx) (total : Nat) :
    ∀ ds index, (run_loop ctx total ds index).1 = ds.map fun d => (process_domain ctx d).1 := by
  intro ds
  induction ds with
  | nil => intro i; rfl
  | cons d rest ih =>
    intro i
    simp only [run_loop, List.map_cons]
    rw [ih]

theorem process_domain_domain (ctx : BulkCtx) (domain : String) :
    ((process_domain ctx domain).1).domain = domain := by
  simp only [process_domain]
  split
  · rfl
  · split
    · rfl
    · split
      · rfl
      · split <;> rfl

/-- Claim C7: the run's terminal result list holds exactly one
`DomainJobResult` per input domain, in input order, each produced by that
domain's own processing; a domain whose record fetch for the backup fails
gets `success = false` with the error recorded while every other domain
is processed on its own. -/
theorem claim_c7 (ctx : BulkCtx) :
    (run ctx).1 = (ctx.domains.map fun d => (process_domain ctx d).1) ∧
    (run ctx).1.length = ctx.domains.length ∧
    (∀ d, ((process_domain ctx d).1).domain = d) ∧
    (∀ d e, ctx.api_records d = Except.error e →
      (process_domain ctx d).1 = { domain := d, errors := [e] }) := by
  have hmap : (run ctx).1 = ctx.domains.map fun d => (process_domain ctx d).1 := by
    cases h : ctx.domains.isEmpty
    · simp only [run, h, Bool.false_eq_true, if_false]
      exact run_loop_results ctx ctx.domains.length ctx.domains 1
    · simp only [run, h, if_true]
      rw [List.isEmpty_iff.mp h]
      rfl
  refine ⟨hmap, by rw [hmap, List.length_map], fun d => process_domain_domain ctx d, ?_⟩
  intro d e he
  simp [process_domain, he]

def c7w_ctx : BulkCtx :=
  { domains := [("a.com"), ("b.com"), ("c.com")], delete_types := [],
    backup_dir := "backups", timestamp := "20250101-0000",
    generator := fun _ =>
      { records := [{ type := "TXT", name := some ("_spf"), content := "v=spf1 ~all",
                      ttl := some 600, prio := none, notes := none }],
        metadata := { template := "", tempererror_chain := [], wildcard_target := "",
                      hop_count := 0, final_content := "" } },
    api_records := fun d => if d = "b.com" then Except.error ("boom") else Except.ok [],
    api_delete := fun _ _ => Except.ok true,
    api_create := fun _ => Except.ok { success := true, message := none } }

/-- Claim C7, witness: 3 domains with the 2nd failing its backup fetch
yield 3 results, the 2nd carrying only the error. -/
theorem claim_c7_witness :
    (run c7w_ctx).1.length = 3 ∧
    (process_domain c7w_ctx ("b.com")).1 = { domain := "b.com", errors := [("boom")] } := by
  refine ⟨?_, (claim_c7 c7w_ctx).2.2.2 ("b.com") ("boom") (by rfl)⟩
  exact ((claim_c7 c7w_ctx).2.1).trans (by decide)

/-- Claim C9: started with an empty domain list, the worker emits a
completed signal carrying an empty result list and performs nothing
else: no client construction, no backup directory creation, no API call,
no file write. -/
theorem claim_c9 (ctx : BulkCtx) (h : ctx.domains = []) :
    run ctx = ([], [Effect.completedEmit []]) := by
  simp [run, h]

def c9w_ctx : BulkCtx :=
  { domains := [], delete_types := [], backup_dir := "backups",
    timestamp := "20250101-0000",
    generator := fun _ =>
      { records := [],
        metadata := { template := "", tempererror_chain := [], wildcard_target := "",
                      hop_count := 0, final_content := "" } },
    api_records := fun _ => Except.ok [],
    api_delete := fun _ _ => Except.ok true,
    api_create := fun _ => Except.ok { success := true, message := none } }

/-- Claim C9, witness. -/
theorem claim_c9_witness : run c9w_ctx = ([], [Effect.completedEmit []]) :=
  claim_c9 c9w_ctx rfl

/-! ## Claim C8 -/

theorem delete_matching_records_effects_shape (api_delete : String → Except String Bool)
    (domain : String) (delete_types : List String) :
    ∀ records e, e ∈ (delete_matching_records api_delete domain delete_types records).2 →
      ∃ rid, e = Effect.apiDelete domain rid := by
  intro records
  induction records with
  | nil => intro e he; cases he
  | cons existing rest ih =>
    intro e he
    simp only [delete_matching_records] at he
    split at he
    · split at he
      · exact ih e he
      · rename_i rid heq
        split at he
        · exact ih e he
        · split at he
          · simp at he
            exact ⟨rid, he⟩
          · simp at he
            exact ⟨rid, he⟩
          · simp only [List.mem_cons] at he
            rcases he with he | he
            · exact ⟨rid, he⟩
            · exact ih e he
    · exact ih e he

theorem create_records_loop_effects (api_create : CreatePayload → Except String CreateResponse)
    (domain : String) :
    ∀ requests e, e ∈ (create_records_loop api_create domain requests).2.2 →
      ∃ r ∈ requests, e = Effect.apiCreate (make_create_payload domain r) := by
  intro requests
  induction requests with
  | nil => intro e he; cases he
  | cons request rest ih =>
    intro e he
    simp only [create_records_loop] at he
    split at he
    · simp at he
      exact ⟨request, List.mem_cons_self request rest, he⟩
    · split at he
      · simp only [List.mem_cons] at he
        rcases he with he | he
        · exact ⟨request, List.mem_cons_self request rest, he⟩
        · obtain ⟨r, hr, hre⟩ := ih e he
          exact ⟨r, List.mem_cons_of_mem request hr, hre⟩
      · simp at he
        exact ⟨request, List.mem_cons_self request rest, he⟩

theorem delete_step_effects_shape (ctx : BulkCtx) (domain : String)
    (records : List ExistingRecord) (e : Effect)
    (he : e ∈ (delete_step ctx domain records).2) :
    ∃ rid, e = Effect.apiDelete domain rid := by
  unfold delete_step at he
  by_cases hde : ctx.delete_types.isEmpty
  · rw [if_pos hde] at he
    cases he
  · rw [if_neg hde] at he
    exact delete_matching_records_effects_shape (ctx.api_delete domain) domain
      ctx.delete_types records e he

theorem delete_step_effects_eq (ctx : BulkCtx) (domain : String)
    (records : List ExistingRecord) (res : Except String (List DeletedSummary))
    (effs : List Effect) (heq : delete_step ctx domain records = (res, effs))
    (e : Effect) (he : e ∈ effs) : ∃ rid, e = Effect.apiDelete domain rid := by
  apply delete_step_effects_shape ctx domain records
  rw [heq]
  exact he

theorem process_domain_create_effects (ctx : BulkCtx) (domain : String) (p : CreatePayload)
    (hp : Effect.apiCreate p ∈ (process_domain ctx domain).2) :
    ∃ r ∈ (ctx.generator domain).records, p = make_create_payload domain r := by
  simp only [process_domain] at hp
  split at hp
  · simp at hp
  · split at hp
    · rename_i heq
      rcases List.mem_append.mp hp with h2 | h2
      · simp at h2
      · obtain ⟨rid, habs⟩ := delete_step_effects_eq ctx domain _ _ _ heq _ h2
        cases habs
    · rename_i heq
      split at hp
      · rcases List.mem_append.mp hp with h2 | h2
        · simp at h2
        · obtain ⟨rid, habs⟩ := delete_step_effects_eq ctx domain _ _ _ heq _ h2
          cases habs
      · split at hp
        · rename_i heq2
          rcases List.mem_append.mp hp with h2 | h2
          · rcases List.mem_append.mp h2 with h3 | h3
            · simp at h3
            · obtain ⟨rid, habs⟩ := delete_step_effects_eq ctx domain _ _ _ heq _ h3
              cases habs
          · have h4 : Effect.apiCreate p ∈
                (create_records_loop ctx.api_create domain (ctx.generator domain).records).2.2 := by
              rw [heq2]; exact h2
            obtain ⟨r, hr, hre⟩ := create_records_loop_effects ctx.api_create domain _ _ h4
            refine ⟨r, hr, ?_⟩
            injection hre
        · rename_i heq2
          rcases List.mem_append.mp hp with h2 | h2
          · rcases List.mem_append.mp h2 with h3 | h3
            · simp at h3
            · obtain ⟨rid, habs⟩ := delete_step_effects_eq ctx domain _ _ _ heq _ h3
              cases habs
          · have h4 : Effect.apiCreate p ∈
                (create_records_loop ctx.api_create domain (ctx.generator domain).records).2.2 := by
              rw [heq2]; exact h2
            obtain ⟨r, hr, hre⟩ := create_records_loop_effects ctx.api_create domain _ _ h4
            refine ⟨r, hr, ?_⟩
            injection hre

theorem run_loop_effects_from_domains (ctx : BulkCtx) (total : Nat) :
    ∀ ds index p, Effect.apiCreate p ∈ (run_loop ctx total ds index).2 →
      ∃ d ∈ ds, Effect.apiCreate p ∈ (process_domain ctx d).2 := by
  intro ds
  induction ds with
  | nil => intro i p hp; cases hp
  | cons d rest ih =>
    intro i p hp
    simp only [run_loop] at hp
    rcases List.mem_append.mp hp with h1 | h1
    · rcases List.mem_cons.mp h1 with h2 | h2
      · cases h2
      · rcases List.mem_append.mp h2 with h3 | h3
        · exact ⟨d, List.mem_cons_self d rest, h3⟩
        · simp at h3
    · obtain ⟨d2, hd2, hmem⟩ := ih (i + 1) p h1
      exact ⟨d2, List.mem_cons_of_mem d hd2, hmem⟩

theorem run_create_effects (ctx : BulkCtx) (p : CreatePayload)
    (h : Effect.apiCreate p ∈ (run ctx).2) :
    ∃ d ∈ ctx.domains, Effect.apiCreate p ∈ (process_domain ctx d).2 := by
  cases hde : ctx.domains.isEmpty
  · simp only [run, hde, Bool.false_eq_true, if_false] at h
    rcases List.mem_cons.mp h with h1 | h
    · cases h1
    rcases List.mem_cons.mp h with h1 | h
    · cases h1
    rcases List.mem_append.mp h with h1 | h1
    · exact run_loop_effects_from_domains ctx ctx.domains.length ctx.domains 1 p h1
    · simp at h1
  · simp only [run, hde, if_true] at h
    simp at h

/-- Claim C8: every create call issued by a bulk run transmits
`ttl = max(descriptor ttl, 600)` for some descriptor of the template
generated for that domain — at least 600 always, and exactly 600 when
the descriptor carries no ttl. -/
theorem claim_c8 (ctx : BulkCtx) (p : CreatePayload)
    (h : Effect.apiCreate p ∈ (run ctx).2) :
    600 ≤ p.ttl ∧
    ∃ d r, r ∈ (ctx.generator d).records ∧ p = make_create_payload d r ∧
      p.ttl = max (r.ttl.getD 600) 600 ∧ (r.ttl = none → p.ttl = 600) := by
  obtain ⟨d, hd, hmem⟩ := run_create_effects ctx p h
  obtain ⟨r, hr, hp⟩ := process_domain_create_effects ctx d p hmem
  subst hp
  refine ⟨show (600 : Int) ≤ max (r.ttl.getD 600) 600 from le_max_right _ _,
    d, r, hr, rfl, rfl, ?_⟩
  intro hnone
  simp [make_create_payload, hnone]

def c8w_record : RecordRequest :=
  { type := "TXT", name := some ("_spf"), content := "v=spf1 ~all", ttl := some 100,
    prio := none, notes := none }

def c8w_ctx : BulkCtx :=
  { domains := [("a.com")], delete_types := [], backup_dir := "backups",
    timestamp := "20250101-0000",
    generator := fun _ =>
      { records := [c8w_record],
        metadata := { template := "", tempererror_chain := [], wildcard_target := "",
                      hop_count := 0, final_content := "" } },
    api_records := fun _ => Except.ok [],
    api_delete := fun _ _ => Except.ok true,
    api_create := fun _ => Except.ok { success := true, message := none } }

/-- Claim C8, witness: a descriptor asking for ttl 100 is transmitted
with ttl 600. -/
theorem claim_c8_witness :
    600 ≤ (make_create_payload ("a.com") c8w_record).ttl ∧
    (make_create_payload ("a.com") c8w_record).ttl = 600 := by
  have h := claim_c8 c8w_ctx (make_create_payload ("a.com") c8w_record) (by decide)
  exact ⟨h.1, by decide⟩

/-! ## Claim C1 -/

theorem delete_matching_records_ok (api_delete : String → Except String Bool)
    (domain : String) (delete_types : List String) :
    ∀ records deleted effs,
      delete_matching_records api_delete domain delete_types records =
        (Except.ok deleted, effs) →
      deleted = (records.filter fun r =>
          record_type_matches delete_types r && !(record_id_falsy r)).map
        fun r => deleted_summary (r.id.getD ("")) r := by
  intro records
  induction records with
  | nil =>
    intro deleted effs h
    simp only [delete_matching_records, Prod.mk.injEq, Except.ok.injEq] at h
    simp [← h.1]
  | cons existing rest ih =>
    intro deleted effs h
    simp only [delete_matching_records] at h
    split at h
    · rename_i hm
      split at h
      · rename_i hid
        rw [ih deleted effs h]
        congr 1
        simp [List.filter_cons, record_id_falsy, hid]
      · rename_i rid hid
        split at h
        · rename_i hre
          rw [ih deleted effs h]
          congr 1
          simp [List.filter_cons, record_id_falsy, hid, hre]
        · rename_i hre
          split at h
          · simp at h
          · simp at h
          · rename_i b hdel hb
            cases hfst : (delete_matching_records api_delete domain delete_types rest).1 with
            | error e2 =>
              rw [hfst] at h
              simp [Except.map] at h
            | ok deleted2 =>
              rw [hfst] at h
              simp only [Except.map, Prod.mk.injEq, Except.ok.injEq] at h
              have hrest := ih deleted2
                (delete_matching_records api_delete domain delete_types rest).2
                (by rw [← hfst])
              rw [← h.1, hrest]
              have hcond : (record_type_matches delete_types existing &&
                  !(record_id_falsy existing)) = true := by
                simp [record_id_falsy, hid, hm, hre]
              simp [List.filter_cons, hcond, hid]
    · rename_i hm
      rw [ih deleted effs h]
      congr 1
      have hcond : (record_type_matches delete_types existing &&
          !(record_id_falsy existing)) = false := by
        simp only [Bool.and_eq_false_iff]
        left
        exact Bool.not_eq_true _ ▸ eq_false_of_ne_true hm
      simp [List.filter_cons, hcond]

theorem process_domain_delete_outcome (ctx : BulkCtx) (domain : String)
    (records : List ExistingRecord) (hrec : ctx.api_records domain = Except.ok records) :
    (∀ msg effs, delete_step ctx domain records = (Except.error msg, effs) →
      (process_domain ctx domain).1.deleted_records = [] ∧
      (process_domain ctx domain).1.errors = [msg]) ∧
    (∀ deleted effs, delete_step ctx domain records = (Except.ok deleted, effs) →
      (process_domain ctx domain).1.deleted_records = deleted) := by
  constructor
  · intro msg effs heq
    simp [process_domain, hrec, heq]
  · intro deleted effs heq
    simp only [process_domain, hrec, heq]
    split
    · rfl
    · split <;> rfl

def c1x_r1 : ExistingRecord :=
  { id := some ("1"), name := some ("a"), type := some ("TXT"), content := some ("x") }

def c1x_r2 : ExistingRecord :=
  { id := some ("2"), name := some ("b"), type := some ("TXT"), content := some ("y") }

def c1x_ctx : BulkCtx :=
  { domains := [("example.com")], delete_types := [("TXT")], backup_dir := "backups",
    timestamp := "20250101-0000",
    generator := fun _ =>
      { records := [],
        metadata := { template := "", tempererror_chain := [], wildcard_target := "",
                      hop_count := 0, final_content := "" } },
    api_records := fun _ => Except.ok [c1x_r1, c1x_r2],
    api_delete := fun _ rid => Except.ok (rid == ("1")),
    api_create := fun _ => Except.ok { success := true, message := none } }

/-- Claim C1, counterexample: with delete type TXT and two TXT records,
the first deletion succeeds (its API call is issued and answered
SUCCESS) and the second fails; the domain's result nevertheless has an
empty `deleted_records` — only the error message is recorded — because
the source assigns `result.deleted_records = deleted` only after the
whole loop, which the failure aborts. The claimed visibility of the
half-deleted state in `deleted_records` does not hold. -/
theorem claim_c1_counterexample :
    c1x_ctx.api_delete ("example.com") ("1") = Except.ok true ∧
    Effect.apiDelete ("example.com") ("1") ∈ (run c1x_ctx).2 ∧
    (run c1x_ctx).1.map DomainJobResult.deleted_records = [[]] ∧
    (run c1x_ctx).1.map DomainJobResult.errors = [[delete_fail_msg c1x_r2]] := by
  refine ⟨rfl, ?_, ?_, ?_⟩ <;> decide

/-- Claim C1 (amended): in the per-domain deletion step, each successful
deletion's summary `{id, name, content, type}` is collected, and the
collected list is stored in `deleted_records` only when every matching
deletion succeeds; when a deletion fails, the domain's result records
only the error message while `deleted_records` stays empty, so the
deletions that succeeded before the failure are not visible in the
result (the half-deleted state is observable only through the issued
delete calls and the error). -/
theorem claim_c1 (ctx : BulkCtx) (domain : String) (records : List ExistingRecord)
    (hrec : ctx.api_records domain = Except.ok records)
    (hdt : ¬ctx.delete_types.isEmpty = true) :
    (∀ msg effs,
      delete_matching_records (ctx.api_delete domain) domain ctx.delete_types records =
        (Except.error msg, effs) →
      (process_domain ctx domain).1.deleted_records = [] ∧
      (process_domain ctx domain).1.errors = [msg]) ∧
    (∀ deleted effs,
      delete_matching_records (ctx.api_delete domain) domain ctx.delete_types records =
        (Except.ok deleted, effs) →
      (process_domain ctx domain).1.deleted_records = deleted ∧
      deleted = (records.filter fun r =>
          record_type_matches ctx.delete_types r && !(record_id_falsy r)).map
        fun r => deleted_summary (r.id.getD ("")) r) := by
  have hds : ∀ x, delete_matching_records (ctx.api_delete domain) domain
      ctx.delete_types records = x → delete_step ctx domain records = x := by
    intro x hx
    unfold delete_step
    rw [if_neg hdt]
    exact hx
  constructor
  · intro msg effs heq
    exact (process_domain_delete_outcome ctx domain records hrec).1 msg effs (hds _ heq)
  · intro deleted effs heq
    exact ⟨(process_domain_delete_outcome ctx domain records hrec).2 deleted effs (hds _ heq),
      delete_matching_records_ok (ctx.api_delete domain) domain ctx.delete_types
        records deleted effs heq⟩

/-- Claim C1, witness: the concrete half-failed deletion scenario. -/
theorem claim_c1_witness :
    (process_domain c1x_ctx ("example.com")).1.deleted_records = [] ∧
    (process_domain c1x_ctx ("example.com")).1.errors = [delete_fail_msg c1x_r2] :=
  (claim_c1 c1x_ctx ("example.com") [c1x_r1, c1x_r2] rfl (by decide)).1
    (delete_fail_msg c1x_r2)
    [Effect.apiDelete ("example.com") ("1"), Effect.apiDelete ("example.com") ("2")]
    rfl

/-! ## Claim C10 -/

/-- Claim C10: an existing record whose type matches a requested delete
type but which carries no (truthy) id is skipped silently: the deletion
pass returns exactly what it returns without that record — no delete
call is issued for it, it appears in no summary, it causes no error, and
processing of the domain continues. -/
theorem claim_c10 (api_delete : String → Except String Bool) (domain : String)
    (delete_types : List String) (rs1 rs2 : List ExistingRecord) (r : ExistingRecord)
    (hmatch : record_type_matches delete_types r = true)
    (hid : record_id_falsy r = true) :
    delete_matching_records api_delete domain delete_types (rs1 ++ r :: rs2) =
      delete_matching_records api_delete domain delete_types (rs1 ++ rs2) := by
  induction rs1 with
  | nil =>
    simp only [List.nil_append]
    cases hidv : r.id with
    | none =>
      simp [delete_matching_records, if_pos hmatch, hidv]
    | some s =>
      have hse : s.isEmpty = true := by
        simpa [record_id_falsy, hidv] using hid
      simp [delete_matching_records, if_pos hmatch, hidv, hse]
  | cons a rs1 ih =>
    simp only [List.cons_append, delete_matching_records, List.append_eq, ih]

def c10w_r : ExistingRecord :=
  { id := none, name := some ("n"), type := some ("TXT"), content := some ("c") }

def c10w_del : String → Except String Bool := fun _ => Except.ok true

/-- Claim C10, witness. -/
theorem claim_c10_witness :
    record_type_matches [("TXT")] c10w_r = true ∧
    delete_matching_records c10w_del ("d.com") [("TXT")] ([] ++ c10w_r :: []) =
      delete_matching_records c10w_del ("d.com") [("TXT")] ([] ++ []) :=
  ⟨by decide, claim_c10 c10w_del ("d.com") [("TXT")] [] [] c10w_r (by decide) (by decide)⟩

end Porkbun
